import Mathlib

/-!
Shallow embedding of the task-marketplace services (quest service and chat
service) of this repository, and proofs about the claims on their behaviour.

Conventions of the embedding:
* Python `float` monetary balances, prices and ratings are modelled as exact
  rationals (`Rat`); timestamps (`datetime.utcnow()`) as natural numbers.
* Database rows (`shared/models.py`) are structures; the database session is a
  record of lists of rows; `db.query(X).filter(X.id == i).first()` is
  `List.find?`.  The SQLAlchemy identity map (two queries for the same row
  return the same mutable object) is mirrored by applying row updates to the
  state sequentially, each reading the previously updated state.
* A FastAPI handler raising `HTTPException` before `db.commit()` leaves the
  store untouched, so a handler is a pure function returning
  `Except Err Resp × DB`, the second component being the store after the call.
* JWT verification (`shared/security.verify_token` followed by
  `payload.get("sub")`) is abstracted as a parameter
  `verify : String → Option String` returning the subject claim.
-/

namespace MyWebBoard

/-- Task status enum, from `shared/schemas.py` (`TaskStatus`). -/
inductive TaskStatus where
  | open
  | in_progress
  | completed
  | cancelled
deriving DecidableEq, Repr

/-- A row of the `users` table (`shared/models.py`, class `User`); fields not
read by the services under study (email, password hash, …) are omitted. -/
structure User where
  id : Nat
  username : String
  balance : Rat
  rating : Rat
  is_active : Bool
deriving DecidableEq, Repr

/-- A row of the `tasks` table (`shared/models.py`, class `Task`). -/
structure Task where
  id : Nat
  title : String
  description : Option String
  price : Rat
  status : TaskStatus
  category : Option String
  deadline : Option Nat
  created_at : Nat
  updated_at : Option Nat
  creator_id : Nat
  executor_id : Option Nat
deriving DecidableEq, Repr

/-- A row of the `chat_messages` table (`shared/models.py`, `ChatMessage`). -/
structure ChatMessage where
  id : Nat
  task_id : Nat
  sender_id : Nat
  message : String
  created_at : Nat
deriving DecidableEq, Repr

/-- The persistent store seen through one database session. -/
structure DB where
  users : List User
  tasks : List Task
  messages : List ChatMessage
deriving DecidableEq, Repr

/-- `db.query(User).filter(User.id == uid).first()`. -/
def findUser (db : DB) (uid : Nat) : Option User :=
  db.users.find? (fun u => u.id == uid)

/-- `db.query(User).filter(User.username == name).first()`. -/
def findUserByName (db : DB) (name : String) : Option User :=
  db.users.find? (fun u => u.username == name)

/-- `db.query(Task).filter(Task.id == tid).first()`. -/
def findTask (db : DB) (tid : Nat) : Option Task :=
  db.tasks.find? (fun t => t.id == tid)

/-- Mutating the (unique) user row with id `x` through the ORM identity map:
every stored row with that id is rewritten by `f`. -/
def updUser (db : DB) (x : Nat) (f : User → User) : DB :=
  { db with users := db.users.map (fun u => if u.id = x then f u else u) }

/-- Mutating the task row with id `x`. -/
def updTask (db : DB) (x : Nat) (f : Task → Task) : DB :=
  { db with tasks := db.tasks.map (fun t => if t.id = x then f t else t) }

/-- The typed error kinds of the quest service handlers; one constructor per
distinct `HTTPException` site of `quest_service/main.py` (the spec's
taxonomy: `Unauthenticated`, `AccountInactive`, `NotFound`, `Forbidden`,
`InvalidState`, `SelfClaimForbidden`, `InsufficientFunds`). -/
inductive QuestErr where
  /-- HTTP 404 "Пользователь не найден" raised by `get_current_user`. -/
  | userNotFound
  /-- HTTP 400 "Пользователь неактивен" raised by `get_current_user`. -/
  | accountInactive
  /-- HTTP 404 "Задание не найдено". -/
  | taskNotFound
  /-- HTTP 403 "Только создатель задания может завершить его". -/
  | forbiddenNotCreator
  /-- HTTP 400 "Задание не в процессе выполнения". -/
  | invalidStateNotInProgress
  /-- HTTP 400 "Задание недоступно для взятия". -/
  | invalidStateNotOpen
  /-- HTTP 400 "Нельзя взять свое задание". -/
  | selfClaimForbidden
  /-- HTTP 400 "У задания нет исполнителя". -/
  | noExecutor
  /-- HTTP 404 "Исполнитель не найден". -/
  | executorNotFound
  /-- HTTP 400 "Недостаточно средств" (creation or completion). -/
  | insufficientFunds
deriving DecidableEq, Repr

/-- The `get_current_user` dependency of `quest_service/main.py` after token
decoding: resolves the subject to a stored user and requires it active. -/
def get_current_user (db : DB) (uid : Nat) : Except QuestErr User :=
  match findUser db uid with
  | none => .error .userNotFound
  | some u => if u.is_active = false then .error .accountInactive else .ok u

/-- Request body of `POST /tasks` (`shared/schemas.py`, `TaskCreate`). -/
structure TaskCreate where
  title : String
  description : Option String
  price : Rat
  category : Option String
  deadline : Option Nat
deriving DecidableEq, Repr

/-- `create_task` (`quest_service/main.py`, lines 103-168): after the
`get_current_user` dependency, rejects when the creator's balance is below
the price, otherwise inserts a new task in the Open state.  `now` is
`datetime.utcnow()` and `nextId` the id the database assigns. -/
def create_task (db : DB) (uid : Nat) (data : TaskCreate) (now nextId : Nat) :
    Except QuestErr Task × DB :=
  match get_current_user db uid with
  | .error e => (.error e, db)
  | .ok current_user =>
    if current_user.balance < data.price then (.error .insufficientFunds, db)
    else
      let t : Task :=
        { id := nextId, title := data.title, description := data.description
          price := data.price, status := .open, category := data.category
          deadline := data.deadline, created_at := now, updated_at := none
          creator_id := current_user.id, executor_id := none }
      (.ok t, { db with tasks := db.tasks ++ [t] })

/-- `GET /tasks/{task_id}` (`quest_service/main.py`, lines 221-248): no
authentication dependency at all; returns the row or 404. -/
def get_task (db : DB) (task_id : Nat) : Except QuestErr Task :=
  match findTask db task_id with
  | none => .error .taskNotFound
  | some t => .ok t

/-- The filter chain of `GET /tasks` (`quest_service/main.py`, lines 194-203).
`if status:` and `if category:` use Python truthiness, so an empty-string
category filter is skipped. -/
def task_matches (status? : Option TaskStatus) (category? : Option String)
    (min_price? max_price? : Option Rat) (t : Task) : Bool :=
  (match status? with | none => true | some s => t.status == s) &&
  (match category? with
   | none => true
   | some c => if c = "" then true else t.category == some c) &&
  (match min_price? with | none => true | some m => m ≤ t.price) &&
  (match max_price? with | none => true | some m => t.price ≤ m)

/-- Newest-first ordering on tasks (`order_by(Task.created_at.desc())`). -/
def taskNewest (a b : Task) : Prop := b.created_at ≤ a.created_at

instance : DecidableRel taskNewest := fun a b => Nat.decLe _ _

/-- `GET /tasks` (`quest_service/main.py`, lines 171-218): filter, order by
creation time descending, then `offset(skip).limit(limit)`.  It has no
authentication dependency and cannot fail. -/
def get_tasks (db : DB) (status? : Option TaskStatus) (category? : Option String)
    (min_price? max_price? : Option Rat) (skip limit : Nat) : List Task :=
  ((List.insertionSort taskNewest
      (db.tasks.filter (task_matches status? category? min_price? max_price?))).drop
    skip).take limit

/-- Response body of `POST /tasks/{task_id}/take`: the handler returns the
dict `{"message": ..., "task_id": task_id}`, not the task record. -/
structure TakeResp where
  message : String
  task_id : Nat
deriving DecidableEq, Repr

/-- `take_task` (`quest_service/main.py`, lines 251-318): checks existence,
Open status, and that the claimant is not the creator, in that order; then
sets status, executor and the updated timestamp. -/
def take_task (db : DB) (task_id uid now : Nat) : Except QuestErr TakeResp × DB :=
  match get_current_user db uid with
  | .error e => (.error e, db)
  | .ok current_user =>
    match findTask db task_id with
    | none => (.error .taskNotFound, db)
    | some task =>
      if task.status ≠ TaskStatus.open then (.error .invalidStateNotOpen, db)
      else if task.creator_id = current_user.id then (.error .selfClaimForbidden, db)
      else
        let db1 := updTask db task_id (fun t =>
          { t with status := TaskStatus.in_progress
                   executor_id := some current_user.id
                   updated_at := some now })
        (.ok { message := "Задание успешно взято", task_id := task_id }, db1)

/-- Python's two-argument `min`, written out so that it evaluates by kernel
reduction on `Rat`. -/
def pymin (a b : Rat) : Rat := if a ≤ b then a else b

/-- Response body of `POST /tasks/{task_id}/complete`. -/
structure CompleteResp where
  message : String
  task_id : Nat
  payment : Rat
deriving DecidableEq, Repr

/-- `complete_task` (`quest_service/main.py`, lines 321-423): the guards in
source order, then the transactional block before `db.commit()`:
status := Completed, debit the creator, credit the executor, and
`executor.rating = min(5.0, executor.rating + 0.1)`. -/
def complete_task (db : DB) (task_id uid now : Nat) :
    Except QuestErr CompleteResp × DB :=
  match get_current_user db uid with
  | .error e => (.error e, db)
  | .ok current_user =>
    match findTask db task_id with
    | none => (.error .taskNotFound, db)
    | some task =>
      if task.creator_id ≠ current_user.id then (.error .forbiddenNotCreator, db)
      else if task.status ≠ TaskStatus.in_progress then
        (.error .invalidStateNotInProgress, db)
      else
        match task.executor_id with
        | none => (.error .noExecutor, db)
        | some eid =>
          match findUser db eid with
          | none => (.error .executorNotFound, db)
          | some _executor =>
            if current_user.balance < task.price then (.error .insufficientFunds, db)
            else
              let db1 := updTask db task_id (fun t =>
                { t with status := TaskStatus.completed, updated_at := some now })
              let db2 := updUser db1 current_user.id (fun u =>
                { u with balance := u.balance - task.price })
              let db3 := updUser db2 eid (fun u =>
                { u with balance := u.balance + task.price })
              let db4 := updUser db3 eid (fun u =>
                { u with rating := pymin 5 (u.rating + 1/10) })
              (.ok { message := "Задание успешно завершено", task_id := task_id
                     payment := task.price }, db4)

/-! ### Chat service (`chat_service/main.py`) -/

/-- The typed error kinds of the chat service REST handlers. -/
inductive ChatErr where
  /-- HTTP 401 "Требуется аутентификация" / "Неверный токен". -/
  | unauthenticated
  /-- HTTP 404 "Задание не найдено". -/
  | taskNotFound
  /-- HTTP 403 "Нет доступа к чату этого задания". -/
  | forbidden
deriving DecidableEq, Repr

/-- `get_current_user_from_token` (`chat_service/main.py`, lines 84-99):
verifies the token, reads the subject claim, and resolves it to a stored
user — note that, unlike the quest service dependency, it does not check
`is_active`. -/
def get_current_user_from_token (db : DB) (verify : String → Option String)
    (token : String) : Option User :=
  match verify token with
  | none => none
  | some sub => findUserByName db sub

/-- `check_task_access` (`chat_service/main.py`, lines 102-108):
`user.id in [task.creator_id, task.executor_id]`. -/
def check_task_access (user : User) (task : Task) : Bool :=
  user.id == task.creator_id || task.executor_id == some user.id

/-- Request body of `POST /messages` (`shared/schemas.py`,
`ChatMessageCreate`). -/
structure ChatMessageCreate where
  task_id : Nat
  message : String
deriving DecidableEq, Repr

/-- `authorization.startswith("Bearer ")` followed by
`authorization.split("Bearer ")[1]`. -/
def bearerToken (authorization : String) : Option String :=
  if authorization.startsWith "Bearer " then
    some (authorization.drop 7)
  else none

/-- `create_message` (`chat_service/main.py`, lines 117-197).  The handler
declares `authorization: str = Depends(lambda: None)`: the dependency is a
zero-argument lambda, so FastAPI never reads the request's Authorization
header and the parameter is always `None` — `reqAuthHeader`, the credential
actually carried by the request, is ignored.  The remaining body is the
source's check chain and insert. -/
def create_message (db : DB) (verify : String → Option String)
    (reqAuthHeader : Option String) (data : ChatMessageCreate)
    (now nextId : Nat) : Except ChatErr ChatMessage × DB :=
  let authorization : Option String := none
  match authorization with
  | none => (.error .unauthenticated, db)
  | some auth =>
    match bearerToken auth with
    | none => (.error .unauthenticated, db)
    | some token =>
      match get_current_user_from_token db verify token with
      | none => (.error .unauthenticated, db)
      | some current_user =>
        match findTask db data.task_id with
        | none => (.error .taskNotFound, db)
        | some task =>
          if check_task_access current_user task = false then
            (.error .forbidden, db)
          else
            let m : ChatMessage :=
              { id := nextId, task_id := data.task_id
                sender_id := current_user.id, message := data.message
                created_at := now }
            (.ok m, { db with messages := db.messages ++ [m] })

/-- Newest-first ordering on messages
(`order_by(ChatMessage.created_at.desc())`). -/
def msgNewest (a b : ChatMessage) : Prop := b.created_at ≤ a.created_at

instance : DecidableRel msgNewest := fun _ _ => Nat.decLe _ _

instance : IsTotal ChatMessage msgNewest :=
  ⟨fun a b => (Nat.le_total a.created_at b.created_at).symm⟩

instance : IsTrans ChatMessage msgNewest :=
  ⟨fun _ _ _ hab hbc => Nat.le_trans hbc hab⟩

/-- Oldest-first ordering on messages (ascending creation time). -/
def msgOldest (a b : ChatMessage) : Prop := a.created_at ≤ b.created_at

/-- The query pipeline of `get_task_messages` (`chat_service/main.py`, lines
248-256): filter by task, order newest first, `offset(skip).limit(limit)`,
then `messages.reverse()` ("return in the right order, oldest first"). -/
def get_task_messages_query (msgs : List ChatMessage) (task_id skip limit : Nat) :
    List ChatMessage :=
  ((((List.insertionSort msgNewest
        (msgs.filter (fun m => m.task_id == task_id)))).drop skip).take
    limit).reverse

/-- The listing the spec describes: the `[offset, offset + limit)` slice of the
task's messages ordered oldest-first, ties broken by id.  (This definition
follows the spec's words, for comparison with `get_task_messages_query`,
which is translated from the source.) -/
def listMessages_spec (msgs : List ChatMessage) (task_id offset limit : Nat) :
    List ChatMessage :=
  (((List.insertionSort
        (fun a b : ChatMessage =>
          a.created_at < b.created_at ∨
            (a.created_at = b.created_at ∧ a.id ≤ b.id))
        (msgs.filter (fun m => m.task_id == task_id)))).drop offset).take limit

instance : DecidableRel
    (fun a b : ChatMessage =>
      a.created_at < b.created_at ∨
        (a.created_at = b.created_at ∧ a.id ≤ b.id)) :=
  fun _ _ => inferInstanceAs (Decidable (_ ∨ _))

/-! ### Conversation registry (`ConnectionManager`, `chat_service/main.py`) -/

/-- `self.active_connections: Dict[int, List[WebSocket]]`, as an association
list from task id to the list of connected sessions (sessions identified by
a numeric identity). -/
abbrev Registry := List (Nat × List Nat)

/-- `task_id in self.active_connections` / `self.active_connections[task_id]`. -/
def regLookup (reg : Registry) (tid : Nat) : Option (List Nat) :=
  (reg.find? (fun p => p.1 == tid)).map (fun p => p.2)

/-- `ConnectionManager.connect` (lines 49-55): create the entry if absent,
then `append` the session to the task's list. -/
def connect (reg : Registry) (tid ws : Nat) : Registry :=
  match regLookup reg tid with
  | none => reg ++ [(tid, [ws])]
  | some conns =>
    reg.map (fun p => if p.1 = tid then (p.1, conns ++ [ws]) else p)

/-- `ConnectionManager.disconnect` (lines 57-64): remove the first occurrence
of the session; drop the task's entry if its list becomes empty. -/
def disconnect (reg : Registry) (tid ws : Nat) : Registry :=
  match regLookup reg tid with
  | none => reg
  | some conns =>
    let conns1 := if ws ∈ conns then conns.erase ws else conns
    if conns1.isEmpty then reg.filter (fun p => !(p.1 == tid))
    else reg.map (fun p => if p.1 = tid then (p.1, conns1) else p)

/-- `ConnectionManager.broadcast` (lines 70-78): iterate over the task's
sessions, skip the excluded one, try to send to each; a send failure
(`fails c = true`) is caught and logged only — the registry is left exactly
as it was, and the iteration continues.  Returns the registry after the call
together with the deliveries `(session, payload)` that succeeded. -/
def broadcast (reg : Registry) (fails : Nat → Bool) (tid : Nat)
    (payload : String) (exclude : Option Nat) : Registry × List (Nat × String) :=
  match regLookup reg tid with
  | none => (reg, [])
  | some conns =>
    (reg, conns.filterMap (fun c =>
      if some c == exclude then none
      else if fails c then none
      else some (c, payload)))

/-- Outcome of the websocket handshake. -/
inductive HandshakeResult where
  /-- `websocket.close(code)` before registration. -/
  | closed (code : Nat)
  /-- `manager.connect` was reached. -/
  | registered
deriving DecidableEq, Repr

/-- `status.WS_1008_POLICY_VIOLATION`. -/
def WS_1008_POLICY_VIOLATION : Nat := 1008

/-- The admission guard of `websocket_endpoint` (`chat_service/main.py`,
lines 283-305): token present, token resolves to a user, task exists,
user is creator or executor. -/
def ws_admissible (db : DB) (verify : String → Option String) (tid : Nat)
    (token : Option String) : Bool :=
  match token with
  | none => false
  | some tok =>
    match get_current_user_from_token db verify tok with
    | none => false
    | some user =>
      match findTask db tid with
      | none => false
      | some task => check_task_access user task

/-- The handshake portion of `websocket_endpoint` (`chat_service/main.py`,
lines 271-308): each failed check closes with `WS_1008_POLICY_VIOLATION`
and returns without touching the registry; only after all checks pass is
`manager.connect` called. -/
def websocket_endpoint (db : DB) (verify : String → Option String)
    (reg : Registry) (tid ws : Nat) (token : Option String) :
    HandshakeResult × Registry :=
  match token with
  | none => (.closed WS_1008_POLICY_VIOLATION, reg)
  | some tok =>
    match get_current_user_from_token db verify tok with
    | none => (.closed WS_1008_POLICY_VIOLATION, reg)
    | some user =>
      match findTask db tid with
      | none => (.closed WS_1008_POLICY_VIOLATION, reg)
      | some task =>
        if check_task_access user task = false then
          (.closed WS_1008_POLICY_VIOLATION, reg)
        else
          (.registered, connect reg tid ws)

instance {ε α : Type} [DecidableEq ε] [DecidableEq α] :
    DecidableEq (Except ε α) := fun a b =>
  match a, b with
  | .error x, .error y =>
    if h : x = y then .isTrue (by rw [h])
    else .isFalse (fun hh => h (Except.error.inj hh))
  | .error _, .ok _ => .isFalse (fun hh => Except.noConfusion hh)
  | .ok _, .error _ => .isFalse (fun hh => Except.noConfusion hh)
  | .ok x, .ok y =>
    if h : x = y then .isTrue (by rw [h])
    else .isFalse (fun hh => h (Except.ok.inj hh))

/-! ### Concrete stores used by the witnesses and counterexamples -/

/-- Store of the spec §8 scenario: creator alice (balance 500), executor bob
(balance 0, rating 4), a claimed task "Fix roof" of price 100. -/
def dbScenario : DB :=
  { users := [⟨1, "alice", 500, 5, true⟩, ⟨2, "bob", 0, 4, true⟩]
    tasks := [⟨1, "Fix roof", none, 100, .in_progress, none, none, 0, none, 1, some 2⟩]
    messages := [] }

/-- Same store, but the creator's balance has dropped to 30 < 100. -/
def dbPoor : DB :=
  { users := [⟨1, "alice", 30, 5, true⟩, ⟨2, "bob", 0, 4, true⟩]
    tasks := [⟨1, "Fix roof", none, 100, .in_progress, none, none, 0, none, 1, some 2⟩]
    messages := [] }

/-- Store with an Open task (creator alice) and two other active users. -/
def dbOpen : DB :=
  { users := [⟨1, "alice", 500, 5, true⟩, ⟨2, "bob", 0, 4, true⟩,
              ⟨3, "carol", 7, 3, true⟩]
    tasks := [⟨1, "Fix roof", none, 100, .open, none, none, 0, none, 1, none⟩]
    messages := [] }

/-- Three messages of task 1 with distinct creation times. -/
def msgsEx : List ChatMessage :=
  [⟨1, 1, 1, "a", 10⟩, ⟨2, 1, 1, "b", 20⟩, ⟨3, 1, 1, "c", 30⟩]

/-- A registry with two sessions (7 and 8) connected to task 1. -/
def regEx : Registry := [(1, [7, 8])]

/-- Token verifier of the witness scenario: one valid token per user. -/
def verifyEx : String → Option String := fun s =>
  if s = "tokA" then some "alice"
  else if s = "tokB" then some "bob"
  else if s = "tokC" then some "carol"
  else none

/-! ### Helper lemmas about lookups after row updates -/

lemma findUser_id {db : DB} {uid : Nat} {u : User}
    (h : findUser db uid = some u) : u.id = uid := by
  simpa using List.find?_some h

lemma findTask_id {db : DB} {tid : Nat} {t : Task}
    (h : findTask db tid = some t) : t.id = tid := by
  simpa using List.find?_some h

lemma findUser_updUser (db : DB) (x : Nat) (f : User → User)
    (hid : ∀ u, (f u).id = u.id) (uid : Nat) :
    findUser (updUser db x f) uid =
      (findUser db uid).map (fun u => if u.id = x then f u else u) := by
  unfold findUser updUser
  rw [List.find?_map]
  have hp : ((fun u : User => u.id == uid) ∘ fun u => if u.id = x then f u else u)
      = (fun u : User => u.id == uid) := by
    funext u
    by_cases h : u.id = x <;> simp [Function.comp, h, hid]
  rw [hp]

lemma findTask_updTask (db : DB) (x : Nat) (f : Task → Task)
    (hid : ∀ t, (f t).id = t.id) (tid : Nat) :
    findTask (updTask db x f) tid =
      (findTask db tid).map (fun t => if t.id = x then f t else t) := by
  unfold findTask updTask
  rw [List.find?_map]
  have hp : ((fun t : Task => t.id == tid) ∘ fun t => if t.id = x then f t else t)
      = (fun t : Task => t.id == tid) := by
    funext t
    by_cases h : t.id = x <;> simp [Function.comp, h, hid]
  rw [hp]

lemma findTask_updUser (db : DB) (x : Nat) (f : User → User) (tid : Nat) :
    findTask (updUser db x f) tid = findTask db tid := rfl

lemma findUser_updTask (db : DB) (x : Nat) (f : Task → Task) (uid : Nat) :
    findUser (updTask db x f) uid = findUser db uid := rfl

/-- C1: a `complete_task` call that passes every guard (task exists, requester
is the creator and is an active stored user, status is InProgress, executor is
set, distinct from the creator, and exists, and the creator's balance covers
the price) returns success together with a single resulting store in which the
creator's balance is debited by exactly the price, the executor's balance is
credited by exactly the price, the executor's rating is `min 5 (rating + 0.1)`,
and the task's status is Completed — all mutations appear in the one returned
store, so there is no observable state with status Completed and unmoved
balances. -/
theorem complete_task_success_atomic_transfer
    (db : DB) (tid uid eid now : Nat) (cu ex : User) (task : Task)
    (hcu : findUser db uid = some cu) (hact : cu.is_active = true)
    (htask : findTask db tid = some task) (hcreator : task.creator_id = uid)
    (hstatus : task.status = TaskStatus.in_progress)
    (hexec : task.executor_id = some eid) (hne : eid ≠ uid)
    (hex : findUser db eid = some ex)
    (hbal : ¬ cu.balance < task.price) :
    ∃ db', complete_task db tid uid now =
        (.ok { message := "Задание успешно завершено", task_id := tid,
               payment := task.price }, db')
      ∧ findUser db' uid = some { cu with balance := cu.balance - task.price }
      ∧ findUser db' eid = some { ex with balance := ex.balance + task.price,
                                          rating := pymin 5 (ex.rating + 1/10) }
      ∧ findTask db' tid = some { task with status := TaskStatus.completed,
                                            updated_at := some now } := by
  have hcuid : cu.id = uid := findUser_id hcu
  have htid : task.id = tid := findTask_id htask
  have hexid : ex.id = eid := findUser_id hex
  have hne' : uid ≠ eid := fun h => hne h.symm
  refine ⟨updUser (updUser (updUser
      (updTask db tid (fun t =>
        { t with status := TaskStatus.completed, updated_at := some now }))
      cu.id (fun u => { u with balance := u.balance - task.price }))
      eid (fun u => { u with balance := u.balance + task.price }))
      eid (fun u => { u with rating := pymin 5 (u.rating + 1/10) }),
    ?_, ?_, ?_, ?_⟩
  · simp [complete_task, get_current_user, hcu, hact, htask, hcreator,
      hcuid, hstatus, hexec, hex, hbal]
  · rw [findUser_updUser _ eid
          (fun u => { u with rating := pymin 5 (u.rating + 1/10) })
          (fun _ => rfl) uid,
        findUser_updUser _ eid
          (fun u => { u with balance := u.balance + task.price })
          (fun _ => rfl) uid,
        findUser_updUser _ cu.id
          (fun u => { u with balance := u.balance - task.price })
          (fun _ => rfl) uid,
        findUser_updTask, hcu]
    simp [hcuid, hne']
  · rw [findUser_updUser _ eid
          (fun u => { u with rating := pymin 5 (u.rating + 1/10) })
          (fun _ => rfl) eid,
        findUser_updUser _ eid
          (fun u => { u with balance := u.balance + task.price })
          (fun _ => rfl) eid,
        findUser_updUser _ cu.id
          (fun u => { u with balance := u.balance - task.price })
          (fun _ => rfl) eid,
        findUser_updTask, hex]
    simp [hexid, hcuid, hne, hne']
  · rw [findTask_updUser, findTask_updUser, findTask_updUser,
        findTask_updTask _ tid
          (fun t => { t with status := TaskStatus.completed,
                             updated_at := some now })
          (fun _ => rfl) tid,
        htask]
    simp [htid]

/-- Witness for C1: the spec §8 scenario — alice (500) completes "Fix roof"
(price 100) executed by bob (0, rating 4). -/
theorem complete_task_success_atomic_transfer_witness :
    ∃ db', complete_task dbScenario 1 1 7 =
        (.ok { message := "Задание успешно завершено", task_id := 1,
               payment := (100 : Rat) }, db')
      ∧ findUser db' 1 =
          some { id := 1, username := "alice", balance := (500 : Rat) - 100,
                 rating := 5, is_active := true }
      ∧ findUser db' 2 =
          some { id := 2, username := "bob", balance := (0 : Rat) + 100,
                 rating := pymin 5 (4 + 1/10), is_active := true }
      ∧ findTask db' 1 =
          some { id := 1, title := "Fix roof", description := none,
                 price := 100, status := .completed, category := none,
                 deadline := none, created_at := 0, updated_at := some 7,
                 creator_id := 1, executor_id := some 2 } :=
  complete_task_success_atomic_transfer dbScenario 1 1 2 7
    ⟨1, "alice", 500, 5, true⟩ ⟨2, "bob", 0, 4, true⟩
    ⟨1, "Fix roof", none, 100, .in_progress, none, none, 0, none, 1, some 2⟩
    rfl rfl rfl rfl rfl rfl (by decide) rfl (by decide)

/-- C2: `complete_task` never mutates the store when it fails: every error
outcome returns the input store unchanged; in particular, when every other
guard passes but the creator's balance is below the price, it fails with
`InsufficientFunds` (status thus stays InProgress), and when the task is not
InProgress it fails with `InvalidState` — in both cases the store, hence
every balance, rating and status, is exactly the input store. -/
theorem complete_task_failure_no_mutation (db : DB) (tid uid now : Nat) :
    (∀ e, (complete_task db tid uid now).1 = .error e →
       (complete_task db tid uid now).2 = db)
    ∧ (∀ cu task eid ex,
        findUser db uid = some cu → cu.is_active = true →
        findTask db tid = some task → task.creator_id = uid →
        task.status = TaskStatus.in_progress → task.executor_id = some eid →
        findUser db eid = some ex → cu.balance < task.price →
        complete_task db tid uid now = (.error .insufficientFunds, db))
    ∧ (∀ cu task,
        findUser db uid = some cu → cu.is_active = true →
        findTask db tid = some task → task.creator_id = uid →
        task.status ≠ TaskStatus.in_progress →
        complete_task db tid uid now = (.error .invalidStateNotInProgress, db)) := by
  refine ⟨?_, ?_, ?_⟩
  · intro e
    unfold complete_task
    repeat' split <;> try simp
  · intro cu task eid ex hcu hact htask hcreator hstatus hexec hex hbal
    have hcuid : cu.id = uid := findUser_id hcu
    simp [complete_task, get_current_user, hcu, hact, htask, hcreator, hcuid,
      hstatus, hexec, hex, hbal]
  · intro cu task hcu hact htask hcreator hstatus
    have hcuid : cu.id = uid := findUser_id hcu
    simp [complete_task, get_current_user, hcu, hact, htask, hcreator, hcuid,
      hstatus]

/-- Witness for C2: alice's balance has dropped to 30 < 100 while "Fix roof"
is InProgress — completion fails with `InsufficientFunds` and the store is
returned untouched. -/
theorem complete_task_failure_no_mutation_witness :
    complete_task dbPoor 1 1 7 = (.error .insufficientFunds, dbPoor) :=
  (complete_task_failure_no_mutation dbPoor 1 1 7).2.1
    ⟨1, "alice", 30, 5, true⟩
    ⟨1, "Fix roof", none, 100, .in_progress, none, none, 0, none, 1, some 2⟩
    2 ⟨2, "bob", 0, 4, true⟩
    rfl rfl rfl rfl rfl rfl rfl (by decide)

/-- Counterexample for C3 (the claim as stated is false): there is no
authenticated active creator with balance strictly below the requested price
for whom `create_task` succeeds — the handler checks the balance at creation
time and rejects. -/
theorem create_task_insufficient_balance_never_succeeds :
    ¬ ∃ (db : DB) (uid : Nat) (data : TaskCreate) (now nextId : Nat)
        (cu : User) (t : Task) (db' : DB),
        findUser db uid = some cu ∧ cu.is_active = true ∧
        cu.balance < data.price ∧
        create_task db uid data now nextId = (.ok t, db') := by
  rintro ⟨db, uid, data, now, nextId, cu, t, db', hcu, hact, hbal, hok⟩
  simp [create_task, get_current_user, hcu, hact, hbal] at hok

/-- C3 (amended): `create_task` for an authenticated active creator is
rejected with `InsufficientFunds` whenever the creator's balance is strictly
below the requested price at creation time; only when the balance covers the
price does it succeed and return a new task in Open state. -/
theorem create_task_balance_check
    (db : DB) (uid : Nat) (data : TaskCreate) (now nextId : Nat) (cu : User)
    (hcu : findUser db uid = some cu) (hact : cu.is_active = true) :
    (cu.balance < data.price →
       create_task db uid data now nextId = (.error .insufficientFunds, db))
    ∧ (¬ cu.balance < data.price →
       ∃ t db', create_task db uid data now nextId = (.ok t, db')
         ∧ t.status = .open ∧ t.price = data.price ∧ t.title = data.title
         ∧ t.creator_id = cu.id ∧ t.executor_id = none ∧ t.id = nextId
         ∧ db' = { db with tasks := db.tasks ++ [t] }) := by
  constructor
  · intro hbal
    simp [create_task, get_current_user, hcu, hact, hbal]
  · intro hbal
    refine ⟨{ id := nextId, title := data.title, description := data.description
              price := data.price, status := .open, category := data.category
              deadline := data.deadline, created_at := now, updated_at := none
              creator_id := cu.id, executor_id := none }, _, ?_, rfl, rfl, rfl,
            rfl, rfl, rfl, rfl⟩
    simp [create_task, get_current_user, hcu, hact, hbal]

/-- Witness for C3's amended theorem: carol (balance 7) requests a task of
price 50 — creation is rejected with `InsufficientFunds`. -/
theorem create_task_balance_check_witness :
    create_task dbOpen 3 ⟨"Paint fence", none, 50, none, none⟩ 4 2 =
      (.error .insufficientFunds, dbOpen) :=
  (create_task_balance_check dbOpen 3 ⟨"Paint fence", none, 50, none, none⟩
    4 2 ⟨3, "carol", 7, 3, true⟩ rfl rfl).1 (by decide)

/-- Counterexample for C4's "returning the updated task": two successful
claims of the same Open task by different claimants (bob, id 2, and carol,
id 3) return the *same* success value — the dict
`{"message": ..., "task_id": ...}` — although the updated tasks differ (the
executor differs), so the returned value cannot be the updated task. -/
theorem take_task_response_not_updated_task :
    (take_task dbOpen 1 2 9).1 = (take_task dbOpen 1 3 9).1
    ∧ findTask (take_task dbOpen 1 2 9).2 1 ≠ findTask (take_task dbOpen 1 3 9).2 1 := by
  decide

/-- C4 (amended): `take_task` fails with `NotFound` if the task is absent,
`InvalidState` if its status is not Open, `SelfClaimForbidden` if the
claimant is the creator (it never succeeds when claimant = creator); when
none of these hold it sets status := InProgress, executor := claimant and the
updated timestamp in the store, and returns a success confirmation carrying
the task id (not the task record). -/
theorem take_task_spec (db : DB) (tid uid now : Nat) (cu : User)
    (hcu : findUser db uid = some cu) (hact : cu.is_active = true) :
    (findTask db tid = none →
       take_task db tid uid now = (.error .taskNotFound, db))
    ∧ (∀ task, findTask db tid = some task → task.status ≠ TaskStatus.open →
        take_task db tid uid now = (.error .invalidStateNotOpen, db))
    ∧ (∀ task, findTask db tid = some task → task.status = TaskStatus.open →
        task.creator_id = uid →
        take_task db tid uid now = (.error .selfClaimForbidden, db))
    ∧ (∀ r db', take_task db tid uid now = (.ok r, db') →
        ∀ task, findTask db tid = some task → task.creator_id ≠ uid)
    ∧ (∀ task, findTask db tid = some task → task.status = TaskStatus.open →
        task.creator_id ≠ uid →
        take_task db tid uid now =
          (.ok { message := "Задание успешно взято", task_id := tid },
           updTask db tid (fun t =>
             { t with status := TaskStatus.in_progress,
                      executor_id := some cu.id, updated_at := some now }))
        ∧ findTask (take_task db tid uid now).2 tid =
            some { task with status := TaskStatus.in_progress,
                             executor_id := some uid,
                             updated_at := some now }) := by
  have hcuid : cu.id = uid := findUser_id hcu
  refine ⟨?_, ?_, ?_, ?_, ?_⟩
  · intro hnone
    simp [take_task, get_current_user, hcu, hact, hnone]
  · intro task htask hst
    simp [take_task, get_current_user, hcu, hact, htask, hst]
  · intro task htask hst hcr
    simp [take_task, get_current_user, hcu, hact, htask, hst, hcr, hcuid]
  · intro r db' hok task htask hcr
    by_cases hst : task.status = TaskStatus.open
    · simp [take_task, get_current_user, hcu, hact, htask, hst, hcr, hcuid] at hok
    · simp [take_task, get_current_user, hcu, hact, htask, hst] at hok
  · intro task htask hst hcr
    have htid : task.id = tid := findTask_id htask
    have heq : take_task db tid uid now =
        (.ok { message := "Задание успешно взято", task_id := tid },
         updTask db tid (fun t =>
           { t with status := TaskStatus.in_progress,
                    executor_id := some cu.id, updated_at := some now })) := by
      simp [take_task, get_current_user, hcu, hact, htask, hst, hcuid, hcr]
    refine ⟨heq, ?_⟩
    rw [heq]
    rw [findTask_updTask _ tid (fun t =>
          { t with status := TaskStatus.in_progress,
                   executor_id := some cu.id, updated_at := some now })
        (fun _ => rfl) tid, htask]
    simp [htid, hcuid]

/-- Witness for C4's amended theorem: alice (the creator) tries to claim her
own Open task — rejected with `SelfClaimForbidden`, store untouched. -/
theorem take_task_spec_witness :
    take_task dbOpen 1 1 9 = (.error .selfClaimForbidden, dbOpen) :=
  (take_task_spec dbOpen 1 1 9 ⟨1, "alice", 500, 5, true⟩ rfl rfl).2.2.1
    ⟨1, "Fix roof", none, 100, .open, none, none, 0, none, 1, none⟩ rfl rfl rfl

/-- C5 (evidence of the code bug): `create_message` rejects *every* request
with `Unauthenticated`, regardless of the bearer credential carried by the
request, of the task, of the sender's role and of the body — because
`authorization: str = Depends(lambda: None)` pins the authorization value to
`None`, the handler's authentication, `NotFound`, `Forbidden` and persist
logic (lines 137-188) is unreachable. -/
theorem create_message_always_unauthenticated
    (db : DB) (verify : String → Option String) (reqAuthHeader : Option String)
    (data : ChatMessageCreate) (now nextId : Nat) :
    create_message db verify reqAuthHeader data now nextId =
      (.error .unauthenticated, db) := rfl

/-- Counterexample for C6: with three messages of task 1 at times 10 < 20 < 30
and window `offset = 0, limit = 2`, the endpoint returns the *newest* two
messages (in ascending order), not the slice `[0, 2)` of the oldest-first
sequence that the claim describes. -/
theorem get_task_messages_query_not_oldest_slice :
    get_task_messages_query msgsEx 1 0 2 ≠ listMessages_spec msgsEx 1 0 2 := by
  decide

/-- C6 (amended): `get_task_messages` returns only messages of the requested
task, at most `limit` of them, sorted oldest-first (ascending creation time);
but the window is taken from the *newest* end: the result is the reverse of
the slice `[skip, skip + limit)` of the task's messages ordered newest-first
(ties under the source's `ORDER BY created_at DESC` have no id tie-break). -/
theorem get_task_messages_query_window (msgs : List ChatMessage)
    (tid skip limit : Nat) :
    (∀ m ∈ get_task_messages_query msgs tid skip limit,
        m ∈ msgs ∧ m.task_id = tid)
    ∧ (get_task_messages_query msgs tid skip limit).length ≤ limit
    ∧ List.Pairwise msgOldest (get_task_messages_query msgs tid skip limit)
    ∧ (get_task_messages_query msgs tid skip limit).reverse =
        ((List.insertionSort msgNewest
            (msgs.filter (fun m => m.task_id == tid))).drop skip).take limit := by
  refine ⟨?_, ?_, ?_, ?_⟩
  · intro m hm
    unfold get_task_messages_query at hm
    rw [List.mem_reverse] at hm
    have hm2 : m ∈ List.insertionSort msgNewest
        (msgs.filter (fun m => m.task_id == tid)) :=
      ((List.take_sublist _ _).trans (List.drop_sublist _ _)).subset hm
    have hm3 : m ∈ msgs.filter (fun m => m.task_id == tid) :=
      (List.perm_insertionSort _ _).subset hm2
    rcases List.mem_filter.mp hm3 with ⟨h1, h2⟩
    exact ⟨h1, by simpa using h2⟩
  · unfold get_task_messages_query
    rw [List.length_reverse, List.length_take]
    exact Nat.min_le_left _ _
  · unfold get_task_messages_query
    rw [List.pairwise_reverse]
    have hs : List.Pairwise msgNewest
        (List.insertionSort msgNewest (msgs.filter (fun m => m.task_id == tid))) :=
      List.sorted_insertionSort msgNewest _
    have hsub := hs.sublist
      ((List.take_sublist limit _).trans (List.drop_sublist skip
        (List.insertionSort msgNewest (msgs.filter (fun m => m.task_id == tid)))))
    exact hsub.imp (fun h => h)
  · unfold get_task_messages_query
    rw [List.reverse_reverse]

/-- Witness for C6's amended theorem, at the three-message store: the middle
message is in the returned window, belongs to the store and to task 1. -/
theorem get_task_messages_query_window_witness :
    (⟨2, 1, 1, "b", 20⟩ : ChatMessage) ∈ msgsEx ∧
    (⟨2, 1, 1, "b", 20⟩ : ChatMessage).task_id = 1 :=
  (get_task_messages_query_window msgsEx 1 0 2).1 ⟨2, 1, 1, "b", 20⟩ (by decide)

/-- Counterexample for C7: in a registry where sessions 7 and 8 are connected
to task 1 and delivery to session 7 fails, the broadcast still delivers to
session 8 and is not aborted — but session 7 is *not* unregistered: the
registry after the call is unchanged and still contains 7. -/
theorem broadcast_failed_session_stays_registered :
    (broadcast regEx (fun c => c == 7) 1 "hello" none).1 = regEx
    ∧ 7 ∈ (regLookup (broadcast regEx (fun c => c == 7) 1 "hello" none).1 1).getD []
    ∧ (broadcast regEx (fun c => c == 7) 1 "hello" none).2 = [(8, "hello")] := by
  decide

/-- C7 (amended): a failed delivery to one session is isolated — it does not
abort delivery to the remaining sessions, and every other registered,
non-excluded, non-failing session still receives the payload — but the
failing session is *not* unregistered: `broadcast` never modifies the
registry (the source only logs the exception). -/
theorem broadcast_best_effort (reg : Registry) (fails : Nat → Bool)
    (tid : Nat) (payload : String) (exclude : Option Nat) :
    (broadcast reg fails tid payload exclude).1 = reg
    ∧ (∀ conns, regLookup reg tid = some conns →
        ∀ c ∈ conns, (some c == exclude) = false → fails c = false →
          (c, payload) ∈ (broadcast reg fails tid payload exclude).2) := by
  constructor
  · unfold broadcast
    cases regLookup reg tid <;> rfl
  · intro conns h c hc hex hf
    unfold broadcast
    rw [h]
    simp only [List.mem_filterMap]
    exact ⟨c, hc, by simp [hex, hf]⟩

/-- Witness for C7's amended theorem: session 8 still receives "hello" even
though delivery to session 7 fails. -/
theorem broadcast_best_effort_witness :
    (8, "hello") ∈ (broadcast regEx (fun c => c == 7) 1 "hello" none).2 :=
  (broadcast_best_effort regEx (fun c => c == 7) 1 "hello" none).2
    [7, 8] rfl 8 (by decide) rfl rfl

/-- Counterexample for C8: registering the same session twice for the same
task does not leave the registry equal to registering it once — the task's
connection list is a Python `list` and `connect` appends unconditionally, so
the session is duplicated. -/
theorem connect_not_idempotent :
    connect (connect ([] : Registry) 1 7) 1 7 ≠ connect ([] : Registry) 1 7 := by
  decide

lemma regLookup_connect_self (reg : Registry) (tid ws : Nat) :
    regLookup (connect reg tid ws) tid =
      some ((regLookup reg tid).getD [] ++ [ws]) := by
  cases h : regLookup reg tid with
  | none =>
    unfold connect
    rw [h]
    have hf : reg.find? (fun p => p.1 == tid) = none := by
      cases hfind : reg.find? (fun p => p.1 == tid)
      · rfl
      · rw [regLookup, hfind] at h; simp at h
    rw [regLookup, List.find?_append, hf]
    simp
  | some conns =>
    unfold connect
    rw [h]
    rw [regLookup, List.find?_map]
    have hp : ((fun p : Nat × List Nat => p.1 == tid) ∘
          fun p => if p.1 = tid then (p.1, conns ++ [ws]) else p)
        = fun p : Nat × List Nat => p.1 == tid := by
      funext p
      by_cases hh : p.1 = tid <;> simp [Function.comp, hh]
    rw [hp]
    rcases hfind : reg.find? (fun p => p.1 == tid) with _ | p0
    · rw [regLookup, hfind] at h; simp at h
    · rw [regLookup, hfind] at h
      simp at h
      have hkey : p0.1 = tid := by simpa using List.find?_some hfind
      rw [hfind]
      simp [hkey, h]

lemma regLookup_connect_other (reg : Registry) (tid ws : Nat) :
    ∀ tid2, tid2 ≠ tid →
      regLookup (connect reg tid ws) tid2 = regLookup reg tid2 := by
  intro tid2 hne
  cases h : regLookup reg tid with
  | none =>
    unfold connect
    rw [h]
    rw [regLookup, regLookup, List.find?_append]
    have hbe : (tid == tid2) = false := by simp [Ne.symm hne]
    have hsingle : List.find? (fun p : Nat × List Nat => p.1 == tid2)
        [(tid, [ws])] = none := by
      simp [List.find?, hbe]
    rw [hsingle]
    simp
  | some conns =>
    unfold connect
    rw [h]
    rw [regLookup, regLookup, List.find?_map]
    have hp : ((fun p : Nat × List Nat => p.1 == tid2) ∘
          fun p => if p.1 = tid then (p.1, conns ++ [ws]) else p)
        = fun p : Nat × List Nat => p.1 == tid2 := by
      funext p
      by_cases hh : p.1 = tid <;> simp [Function.comp, hh]
    rw [hp]
    rcases hfind : reg.find? (fun p => p.1 == tid2) with _ | q0
    · rw [hfind]
      rfl
    · rw [hfind]
      have hkey : q0.1 = tid2 := by simpa using List.find?_some hfind
      simp [hkey, hne]

/-- C8 (amended): `connect` appends the session to the task's list
unconditionally (creating the entry if absent) and leaves other tasks'
entries unchanged; consequently registering the same session twice yields a
registry different from registering it once — the operation is *not*
idempotent on the session identity. -/
theorem connect_appends (reg : Registry) (tid ws : Nat) :
    regLookup (connect reg tid ws) tid =
      some ((regLookup reg tid).getD [] ++ [ws])
    ∧ (∀ tid2, tid2 ≠ tid →
        regLookup (connect reg tid ws) tid2 = regLookup reg tid2)
    ∧ connect (connect reg tid ws) tid ws ≠ connect reg tid ws := by
  refine ⟨regLookup_connect_self reg tid ws, regLookup_connect_other reg tid ws, ?_⟩
  intro heq
  have h1 := regLookup_connect_self reg tid ws
  have h2 := regLookup_connect_self (connect reg tid ws) tid ws
  rw [heq, h1] at h2
  simp at h2

/-- Witness for C8's amended theorem: adding session 9 to task 1 does not
disturb the (absent) entry of task 2. -/
theorem connect_appends_witness :
    regLookup (connect regEx 1 9) 2 = regLookup regEx 2 :=
  (connect_appends regEx 1 9).2.1 2 (by decide)

/-- C9: the conversation-session handshake registers a session only when the
admission guard passes (token present, token resolves to a user, task
exists, user is creator or executor); whenever the guard fails, the session
is closed with `WS_1008_POLICY_VIOLATION` and the registry is returned
exactly as it was — no session is ever registered unauthenticated or
unauthorized. -/
theorem websocket_endpoint_guard (db : DB) (verify : String → Option String)
    (reg : Registry) (tid ws : Nat) (token : Option String) :
    (ws_admissible db verify tid token = false →
       websocket_endpoint db verify reg tid ws token =
         (.closed WS_1008_POLICY_VIOLATION, reg))
    ∧ ((websocket_endpoint db verify reg tid ws token).1 = .registered →
       ws_admissible db verify tid token = true)
    ∧ (ws_admissible db verify tid token = true →
       websocket_endpoint db verify reg tid ws token =
         (.registered, connect reg tid ws)) := by
  have key : websocket_endpoint db verify reg tid ws token =
      if ws_admissible db verify tid token = true then
        (.registered, connect reg tid ws)
      else (.closed WS_1008_POLICY_VIOLATION, reg) := by
    unfold websocket_endpoint ws_admissible
    rcases token with _ | tok
    · simp
    · rcases hu : get_current_user_from_token db verify tok with _ | user
      · simp [hu]
      · rcases ht : findTask db tid with _ | task
        · simp [hu, ht]
        · cases hacc : check_task_access user task <;> simp [hu, ht, hacc]
  refine ⟨?_, ?_, ?_⟩
  · intro h
    rw [key, h]
    simp
  · intro h
    by_contra hadm
    rw [key] at h
    simp [hadm] at h
  · intro h
    rw [key, h]
    simp

/-- Witness for C9: the spec §8 scenario — carol (id 3), neither creator nor
executor of task 1, connects with a valid token and is rejected with a
policy-violation close before appearing in the registry. -/
theorem websocket_endpoint_guard_witness :
    websocket_endpoint dbScenario verifyEx regEx 1 99 (some "tokC") =
      (.closed WS_1008_POLICY_VIOLATION, regEx) :=
  (websocket_endpoint_guard dbScenario verifyEx regEx 1 99 (some "tokC")).1
    (by decide)

/-- C10: the task read operations take no credential (neither `get_task` nor
`get_tasks` has an authentication parameter): `get_task` returns the full
stored record exactly when the task exists and its only error is
`taskNotFound` (never an authentication or authorization error), and every
task returned by `get_tasks` is a stored task satisfying the requested
filters. -/
theorem read_endpoints_open_access (db : DB) (i : Nat)
    (status? : Option TaskStatus) (category? : Option String)
    (min_price? max_price? : Option Rat) (skip limit : Nat) :
    (∀ t, get_task db i = .ok t ↔ findTask db i = some t)
    ∧ (∀ e, get_task db i = .error e → e = .taskNotFound ∧ findTask db i = none)
    ∧ (∀ t ∈ get_tasks db status? category? min_price? max_price? skip limit,
        t ∈ db.tasks ∧
          task_matches status? category? min_price? max_price? t = true) := by
  refine ⟨?_, ?_, ?_⟩
  · intro t
    unfold get_task
    cases h : findTask db i <;> simp
  · intro e
    unfold get_task
    cases h : findTask db i
    · exact fun h' => ⟨(Except.error.inj h').symm, rfl⟩
    · simp
  · intro t ht
    unfold get_tasks at ht
    have ht2 : t ∈ List.insertionSort taskNewest
        (db.tasks.filter (task_matches status? category? min_price? max_price?)) :=
      ((List.take_sublist limit _).trans (List.drop_sublist skip _)).subset ht
    have ht3 : t ∈ db.tasks.filter
        (task_matches status? category? min_price? max_price?) :=
      (List.perm_insertionSort _ _).subset ht2
    exact List.mem_filter.mp ht3

/-- Witness for C10: reading task 1 of the scenario store without any
credential returns the full record. -/
theorem read_endpoints_open_access_witness :
    get_task dbScenario 1 =
      .ok ⟨1, "Fix roof", none, 100, .in_progress, none, none, 0, none, 1, some 2⟩ :=
  ((read_endpoints_open_access dbScenario 1 none none none none 0 100).1
    ⟨1, "Fix roof", none, 100, .in_progress, none, none, 0, none, 1, some 2⟩).mpr rfl

end MyWebBoard
